import Mathlib

/-!
Shallow embedding of `src/index.js` (class `RotatingS3Stream`), a rotating
local log stream that periodically syncs closed files to S3.

Modelling conventions:
* Time is a `Nat` of milliseconds (`Date.now()` / `new Date().getTime()`).
* File sizes are `Nat` bytes (`fs.stat` sizes).
* `this.empty` starts out as JavaScript `undefined` and is only assigned by
  `checkAndRotate`; it is modelled as `Option Bool`, with `none` for
  `undefined`.  JavaScript truthiness of that field is `truthy`.
* Side effects are recorded explicitly: emitted events, dispatched
  `aws s3 cp` spawns (as `(source, destination)` pairs), `fs.unlink` calls,
  and rotations performed (with their reason).
* `moment().format()` (the default `createFileName`) formats the current
  time at one-second resolution (`YYYY-MM-DDTHH:mm:ssZ`); it is modelled as
  the decimal string of `t / 1000`, keeping exactly the property that
  matters: the name is a function of the current second.
-/

namespace RotatingS3Stream

/-- The reason value passed to `rotate`: `checkAndRotate` passes a plain
string, while `flush` passes an object literal with a single reason
field. -/
inductive Reason where
  | str (s : String)
  | obj (s : String)
deriving DecidableEq, Repr

/-- An event emitted on the stream (`this.emit(level, payload)`); payload
fields absent from a given emission are `none`. -/
structure Event where
  level : String
  message : String
  source : Option String := none
  destination : Option String := none
  reason : Option Reason := none
  code : Option Int := none
  errMsg : Option String := none
deriving DecidableEq, Repr

/-- The side effects produced by one engine operation. -/
structure Out where
  events : List Event := []
  uploads : List (String × String) := []
  deletions : List String := []
  rotations : List Reason := []
deriving DecidableEq, Repr

/-- Engine-level mutable state: `this.source`, `this.destination`,
`this.created` and `this.empty` (the latter persists across
`createStream`, which never assigns it). -/
structure StreamState where
  source : String
  destination : String
  created : Nat
  empty : Option Bool
deriving DecidableEq, Repr

/-- JavaScript truthiness of the `this.empty` field: `undefined` is falsy. -/
def truthy : Option Bool → Bool
  | none => false
  | some b => b

/-- Runtime configuration saved by a successfully validated constructor. -/
structure Config where
  localPrefix : String
  s3Prefix : String
  maxFileSize : Nat
  maxFileAge : Nat
  createFileName : Nat → String

/-- Model of the default name generator `() => moment().format()`: a
function of the current second (see the header note). -/
def defaultCreateFileName (t : Nat) : String :=
  Nat.repr (t / 1000)

/-- `createStream()`: picks a file name, derives `source`/`destination`,
resets `created`, ends any previous stream and opens an append-mode stream
on `source`, and (deferred via `setImmediate`) emits the creation info
event.  `this.empty` is not assigned, so the previous flag is carried
over. -/
def createStream (cfg : Config) (now : Nat) (empty : Option Bool) :
    StreamState × List Event :=
  let fileName := cfg.createFileName now
  let source := cfg.localPrefix ++ "/" ++ fileName
  let destination := cfg.s3Prefix ++ "/" ++ fileName
  (⟨source, destination, now, empty⟩,
   [{ level := "info", message := "Created new write stream",
      source := some source, destination := some destination }])

/-- The result of `rotate`: the new engine state, the `(source,
destination)` pair captured in the local constants before `createStream`
is called, and the recorded side effects. -/
structure RotateResult where
  state : StreamState
  old : String × String
  out : Out
deriving Repr

/-- `rotate(reason)`: announce, capture the current `source`/`destination`,
swap in a new stream, then either spawn `aws s3 cp` (when `this.empty` is
not truthy) or emit the empty-skip event and unlink the old file. -/
def rotate (cfg : Config) (now : Nat) (s : StreamState) (reason : Reason) :
    RotateResult :=
  let announce : Event :=
    { level := "info", message := "Rotating stream",
      source := some s.source, destination := some s.destination,
      reason := some reason }
  let source := s.source
  let destination := s.destination
  let (s2, createEvents) := createStream cfg now s.empty
  if truthy s.empty then
    { state := s2, old := (source, destination),
      out := { events := announce ::
                 ({ level := "info",
                    message := "Rotating empty local stream without S3 sync",
                    source := some source } :: createEvents),
               uploads := [], deletions := [source],
               rotations := [reason] } }
  else
    { state := s2, old := (source, destination),
      out := { events := announce :: createEvents,
               uploads := [(source, destination)], deletions := [],
               rotations := [reason] } }

/-- `checkAndRotate()`: on a `fs.stat` error emit the failure event and
return; otherwise compute the age in whole seconds, refresh `this.empty`,
and rotate when a threshold is strictly exceeded (age checked first). -/
def checkAndRotate (cfg : Config) (now : Nat) (s : StreamState)
    (stat : Except String Nat) : StreamState × Out :=
  match stat with
  | Except.error err =>
      (s, { events := [{ level := "error", message := "fs.stat failed",
                         source := some s.source, errMsg := some err }] })
  | Except.ok size =>
      let ageInSeconds := (now - s.created) / 1000
      let s1 : StreamState := { s with empty := some (size == 0) }
      if cfg.maxFileAge < ageInSeconds then
        let r := rotate cfg now s1 (Reason.str "Max file age reached")
        (r.state, r.out)
      else if cfg.maxFileSize < size then
        let r := rotate cfg now s1 (Reason.str "Max file size reached")
        (r.state, r.out)
      else
        (s1, {})

/-- `flush()`: rotate unconditionally, passing the object-shaped reason. -/
def flushStream (cfg : Config) (now : Nat) (s : StreamState) : RotateResult :=
  rotate cfg now s (Reason.obj "External flush request")

/-- The `awscp.on('close', ...)` handler for one dispatched upload: on a
nonzero code emit the failure event (with code, source, destination) and
keep the local file; on code 0 emit the success event and unlink it. -/
def onUploadClose (code : Int) (source destination : String) :
    List Event × List String :=
  if code ≠ 0 then
    ([{ level := "error", message := "AWS S3 cp failed", code := some code,
        source := some source, destination := some destination }], [])
  else
    ([{ level := "info", message := "Rotated and synced stream to s3",
        source := some source, destination := some destination }], [source])

/-- Engine state paired with the size the current local file actually has
on disk.  The constructor opens a fresh file (the local directory is
created by `mkdirp`), so the current size starts at 0, and after each
rotation the newly opened file again starts at 0. -/
structure Sys where
  st : StreamState
  curSize : Nat
deriving DecidableEq, Repr

/-- The runtime part of the constructor after validation: `mkdirp`, then
the initial `createStream` at construction time `t0`, then the minute
schedule (not represented in the state). -/
def initSys (cfg : Config) (t0 : Nat) : Sys :=
  { st := (createStream cfg t0 none).1, curSize := 0 }

/-- The external stimuli the engine reacts to: an append of `n` bytes, a
scheduler tick whose `fs.stat` succeeds (reporting the real current size),
a tick whose `fs.stat` fails, and a manual `flush()`. -/
inductive Op where
  | write (n : Nat)
  | tick (now : Nat)
  | tickFail (now : Nat) (e : String)
  | flush (now : Nat)
deriving DecidableEq, Repr

/-- One step of the system: the engine transition of `src/index.js`
together with the bookkeeping of the current local file size. -/
def stepSys (cfg : Config) (y : Sys) : Op → Sys × Out
  | Op.write n => ({ y with curSize := y.curSize + n }, {})
  | Op.tick now =>
      let (st2, out) := checkAndRotate cfg now y.st (Except.ok y.curSize)
      ({ st := st2,
         curSize := if out.rotations.isEmpty then y.curSize else 0 }, out)
  | Op.tickFail now e =>
      let (st2, out) := checkAndRotate cfg now y.st (Except.error e)
      ({ st := st2, curSize := y.curSize }, out)
  | Op.flush now =>
      let r := flushStream cfg now y.st
      ({ st := r.state, curSize := 0 }, r.out)

/-! ### Constructor validation

The constructor receives a JavaScript options object and runs `typeof`
checks before any side effect (`mkdirp.sync`, `createStream`,
`schedule`).  JavaScript values are modelled only as finely as those
checks look at them. -/

/-- A JavaScript value as seen by the constructor's validation. -/
inductive JSVal where
  | undef
  | str (s : String)
  | num (n : Int)
  | fn
  | other
deriving DecidableEq, Repr

/-- `typeof v === 'string'`. -/
def JSVal.isString : JSVal → Bool
  | JSVal.str _ => true
  | _ => false

/-- `typeof v === 'number' && v > 0`. -/
def JSVal.isPosNum : JSVal → Bool
  | JSVal.num n => 0 < n
  | _ => false

/-- Whether `pat` occurs as a contiguous run inside the character list. -/
def listContainsSub (pat : List Char) : List Char → Bool
  | [] => pat.isEmpty
  | c :: cs => pat.isPrefixOf (c :: cs) || listContainsSub pat cs

/-- `s.indexOf('s3://') !== -1`: the string contains `s3://`. -/
def containsS3 (s : String) : Bool :=
  listContainsSub "s3://".data s.data

/-- `typeof v === 'string' && v.indexOf('s3://') !== -1`. -/
def JSVal.isS3Ref : JSVal → Bool
  | JSVal.str s => containsS3 s
  | _ => false

/-- `typeof v === 'undefined' || typeof v === 'function'`. -/
def JSVal.isOptionalFn : JSVal → Bool
  | JSVal.undef => true
  | JSVal.fn => true
  | _ => false

/-- The constructor's options object. -/
structure Opts where
  localPrefix : JSVal
  s3Prefix : JSVal
  maxFileSize : JSVal
  maxFileAge : JSVal
  createFileName : JSVal
deriving DecidableEq, Repr

/-- The validation block at the top of the constructor, in source order;
`some msg` is the thrown error. -/
def validateOpts (o : Opts) : Option String :=
  if !o.localPrefix.isString then
    some "localPrefix must be a string"
  else if !o.maxFileSize.isPosNum then
    some "maxFileSize must be a number greater than 0"
  else if !o.maxFileAge.isPosNum then
    some "maxFileAge must be a number greater than 0"
  else if !o.s3Prefix.isS3Ref then
    some "s3Prefix must be a valid s3 prefix in the form: s3://<bucket><prefix>"
  else if !o.createFileName.isOptionalFn then
    some "createFileName must be a function"
  else
    none

/-- The constructor's side effects once validation has passed. -/
inductive CtorEffect where
  | mkdirLocal
  | openInitial
  | scheduleTicks
deriving DecidableEq, Repr

/-- The whole constructor: either throws (first component `some msg`)
having performed no side effect, or saves the options and performs
`mkdirp.sync`, `createStream()` and the schedule registration. -/
def constructorModel (o : Opts) : Option String × List CtorEffect :=
  match validateOpts o with
  | some e => (some e, [])
  | none => (none, [CtorEffect.mkdirLocal, CtorEffect.openInitial,
                    CtorEffect.scheduleTicks])

/-- The predicate of invalid options as the data-model constraints are
settled against the code: `localPrefix` any string (the code runs only a
`typeof` check, so the empty string passes), the two limits positive
numbers, `s3Prefix` a string containing `s3://`, and `createFileName`
absent or a function. -/
def invalidOptsSpec (o : Opts) : Bool :=
  !o.localPrefix.isString || !o.maxFileSize.isPosNum || !o.maxFileAge.isPosNum
    || !o.s3Prefix.isS3Ref || !o.createFileName.isOptionalFn

/-! ### Concrete fixtures used by counterexamples and witnesses -/

/-- A valid configuration with the default name generator
(`maxFileSize` 1000 bytes, `maxFileAge` 60 seconds). -/
def cfgW : Config :=
  { localPrefix := "logs", s3Prefix := "s3://bucket/logs",
    maxFileSize := 1000, maxFileAge := 60,
    createFileName := defaultCreateFileName }

/-- The system right after construction at `t = 1000` ms: current file
`logs/1`, size 0, `this.empty` still undefined. -/
def sys0 : Sys := initSys cfgW 1000

/-- `sys0` after a tick at `t = 2000` ms: no threshold is exceeded, so no
rotation, but the tick records `this.empty = true` (the file had size 0
at that check). -/
def sysChecked : Sys := (stepSys cfgW sys0 (Op.tick 2000)).1

/-- `sysChecked` after 5 bytes are appended: the current file now has
size 5 while the recorded `this.empty` is still `true`. -/
def sysWritten : Sys := (stepSys cfgW sysChecked (Op.write 5)).1

/-- An engine state whose recorded empty flag is `true`. -/
def stEmptyTrue : StreamState :=
  { source := "logs/1", destination := "s3://bucket/logs/1",
    created := 1000, empty := some true }

/-- An engine state whose recorded empty flag is `false`. -/
def stEmptyFalse : StreamState :=
  { source := "logs/1", destination := "s3://bucket/logs/1",
    created := 1000, empty := some false }

/-- Options whose `localPrefix` is the empty string and whose other
fields are valid. -/
def opts0 : Opts :=
  { localPrefix := JSVal.str "", s3Prefix := JSVal.str "s3://bucket/logs",
    maxFileSize := JSVal.num 1000, maxFileAge := JSVal.num 60,
    createFileName := JSVal.undef }

/-- Options whose `localPrefix` is a number, with the other fields
valid. -/
def optsBad : Opts :=
  { localPrefix := JSVal.num 3, s3Prefix := JSVal.str "s3://bucket/logs",
    maxFileSize := JSVal.num 1000, maxFileAge := JSVal.num 60,
    createFileName := JSVal.undef }

/-- First of two flushes in immediate succession (t = 1100 ms, within the
same second as the construction of `sys0`). -/
def r1W : RotateResult := flushStream cfgW 1100 sys0.st

/-- Second of the two flushes, at t = 1200 ms. -/
def r2W : RotateResult := flushStream cfgW 1200 r1W.state

/-! ### Helper lemmas about `rotate` -/

theorem rotate_state (cfg : Config) (now : Nat) (s : StreamState) (r : Reason) :
    (rotate cfg now s r).state = (createStream cfg now s.empty).1 := by
  cases h : truthy s.empty <;> simp [rotate, createStream, h]

theorem rotate_old (cfg : Config) (now : Nat) (s : StreamState) (r : Reason) :
    (rotate cfg now s r).old = (s.source, s.destination) := by
  cases h : truthy s.empty <;> simp [rotate, createStream, h]

theorem rotate_uploads (cfg : Config) (now : Nat) (s : StreamState) (r : Reason) :
    (rotate cfg now s r).out.uploads =
      if truthy s.empty then [] else [(s.source, s.destination)] := by
  cases h : truthy s.empty <;> simp [rotate, createStream, h]

theorem rotate_deletions (cfg : Config) (now : Nat) (s : StreamState) (r : Reason) :
    (rotate cfg now s r).out.deletions =
      if truthy s.empty then [s.source] else [] := by
  cases h : truthy s.empty <;> simp [rotate, createStream, h]

theorem rotate_rotations (cfg : Config) (now : Nat) (s : StreamState) (r : Reason) :
    (rotate cfg now s r).out.rotations = [r] := by
  cases h : truthy s.empty <;> simp [rotate, createStream, h]

theorem string_append_cancel_left (p a b : String) (h : p ++ a = p ++ b) :
    a = b := by
  have hd := congrArg String.data h
  simp [String.data_append] at hd
  exact String.ext hd

theorem rotate_state_source (cfg : Config) (now : Nat) (s : StreamState)
    (r : Reason) :
    (rotate cfg now s r).state.source =
      cfg.localPrefix ++ "/" ++ cfg.createFileName now := by
  rw [rotate_state]; rfl

theorem checkAndRotate_ok_rotations (cfg : Config) (now : Nat)
    (s : StreamState) (size : Nat) :
    (checkAndRotate cfg now s (Except.ok size)).2.rotations =
      (if cfg.maxFileAge < (now - s.created) / 1000 then
        [Reason.str "Max file age reached"]
       else if cfg.maxFileSize < size then
        [Reason.str "Max file size reached"]
       else []) := by
  by_cases h1 : cfg.maxFileAge < (now - s.created) / 1000 <;>
    by_cases h2 : cfg.maxFileSize < size <;>
      simp [checkAndRotate, h1, h2, rotate_rotations]

/-! ### C1 -/

/-- C1 counterexample: a rotation in which the superseded file was empty
(size 0 at rotation time) in which an upload IS dispatched and the local
file is NOT deleted.  A `flush()` fired before the first scheduler tick
finds `this.empty` still undefined (falsy), so the freshly constructed,
still size-0 file is handed to `aws s3 cp`. -/
theorem c1_empty_at_rotation_is_uploaded :
    sys0.curSize = 0
  ∧ (stepSys cfgW sys0 (Op.flush 1100)).2.uploads =
      [("logs/1", "s3://bucket/logs/1")]
  ∧ (stepSys cfgW sys0 (Op.flush 1100)).2.deletions = [] := by
  decide

/-- C1 (amended): for every rotation in which the recorded empty flag
(`this.empty`, set at the most recent successful size check) is truthy,
no upload is dispatched: rotate emits an info event noting the empty-file
skip and deletes the old local file. -/
theorem c1_flagged_empty_skips_upload (cfg : Config) (now : Nat)
    (s : StreamState) (r : Reason) (h : truthy s.empty = true) :
    (rotate cfg now s r).out.uploads = []
  ∧ (rotate cfg now s r).out.deletions = [s.source]
  ∧ ∃ ev ∈ (rotate cfg now s r).out.events,
      ev.level = "info"
      ∧ ev.message = "Rotating empty local stream without S3 sync"
      ∧ ev.source = some s.source := by
  refine ⟨by simp [rotate_uploads, h], by simp [rotate_deletions, h], ?_⟩
  refine ⟨{ level := "info",
            message := "Rotating empty local stream without S3 sync",
            source := some s.source }, ?_, rfl, rfl, rfl⟩
  simp [rotate, createStream, h]

/-- C1 witness: the amended theorem applied to a state whose empty flag
is recorded `true`. -/
theorem c1_flagged_empty_skips_upload_at_instance :
    (rotate cfgW 2000 stEmptyTrue (Reason.str "Max file age reached")).out.uploads
        = []
  ∧ (rotate cfgW 2000 stEmptyTrue (Reason.str "Max file age reached")).out.deletions
        = [stEmptyTrue.source]
  ∧ ∃ ev ∈ (rotate cfgW 2000 stEmptyTrue
        (Reason.str "Max file age reached")).out.events,
      ev.level = "info"
      ∧ ev.message = "Rotating empty local stream without S3 sync"
      ∧ ev.source = some stEmptyTrue.source :=
  c1_flagged_empty_skips_upload cfgW 2000 stEmptyTrue
    (Reason.str "Max file age reached") rfl

/-! ### C2 -/

/-- C2 counterexample: a rotation whose superseded file is non-empty
(5 bytes on disk) for which NO upload is dispatched.  The last tick saw
size 0 and recorded `this.empty = true`; 5 bytes were appended after that
check, and a `flush()` then trusts the stale flag, skips the upload and
unlinks the non-empty file. -/
theorem c2_nonempty_not_uploaded :
    sysWritten.curSize = 5
  ∧ (stepSys cfgW sysWritten (Op.flush 3000)).2.uploads = []
  ∧ (stepSys cfgW sysWritten (Op.flush 3000)).2.deletions = ["logs/1"] := by
  decide

/-- C2 (amended): for every rotation in which the recorded empty flag is
not truthy, exactly one upload is dispatched, and its `(localPath,
remotePath)` arguments equal the superseded file source and destination
captured before the swap to the new ActiveFile. -/
theorem c2_nonflagged_dispatches_one_upload (cfg : Config) (now : Nat)
    (s : StreamState) (r : Reason) (h : truthy s.empty = false) :
    (rotate cfg now s r).out.uploads = [(s.source, s.destination)]
  ∧ (rotate cfg now s r).out.uploads.length = 1
  ∧ (rotate cfg now s r).old = (s.source, s.destination) := by
  refine ⟨by simp [rotate_uploads, h], by simp [rotate_uploads, h],
    rotate_old cfg now s r⟩

/-- C2 witness: the amended theorem applied to a state whose empty flag
is recorded `false`. -/
theorem c2_nonflagged_dispatches_one_upload_at_instance :
    (rotate cfgW 2000 stEmptyFalse (Reason.str "Max file size reached")).out.uploads
        = [(stEmptyFalse.source, stEmptyFalse.destination)]
  ∧ (rotate cfgW 2000 stEmptyFalse
        (Reason.str "Max file size reached")).out.uploads.length = 1
  ∧ (rotate cfgW 2000 stEmptyFalse (Reason.str "Max file size reached")).old
        = (stEmptyFalse.source, stEmptyFalse.destination) :=
  c2_nonflagged_dispatches_one_upload cfgW 2000 stEmptyFalse
    (Reason.str "Max file size reached") rfl

/-! ### C3 -/

/-- C3: both thresholds are strict.  With the age computed as
`floor((now - createdAt) / 1000)`: age exactly `maxFileAge` does not
trigger rotation (when size is within bounds) while age `maxFileAge + 1`
does; size exactly `maxFileSize` does not trigger rotation (when age is
within bounds) while size `maxFileSize + 1` does. -/
theorem c3_thresholds_strict (cfg : Config) (s : StreamState)
    (now1 now2 now3 : Nat) :
    ((now1 - s.created) / 1000 = cfg.maxFileAge →
       ∀ size, size ≤ cfg.maxFileSize →
         (checkAndRotate cfg now1 s (Except.ok size)).2.rotations = [])
  ∧ ((now2 - s.created) / 1000 = cfg.maxFileAge + 1 →
       ∀ size, (checkAndRotate cfg now2 s (Except.ok size)).2.rotations =
         [Reason.str "Max file age reached"])
  ∧ ((now3 - s.created) / 1000 ≤ cfg.maxFileAge →
       (checkAndRotate cfg now3 s (Except.ok cfg.maxFileSize)).2.rotations = []
     ∧ (checkAndRotate cfg now3 s (Except.ok (cfg.maxFileSize + 1))).2.rotations
         = [Reason.str "Max file size reached"]) := by
  refine ⟨fun h size hsz => ?_, fun h size => ?_, fun h => ⟨?_, ?_⟩⟩
  · rw [checkAndRotate_ok_rotations, h, if_neg (Nat.lt_irrefl _),
      if_neg (Nat.not_lt.mpr hsz)]
  · rw [checkAndRotate_ok_rotations, h, if_pos (Nat.lt_succ_self _)]
  · rw [checkAndRotate_ok_rotations, if_neg (Nat.not_lt.mpr h),
      if_neg (Nat.lt_irrefl _)]
  · rw [checkAndRotate_ok_rotations, if_neg (Nat.not_lt.mpr h),
      if_pos (Nat.lt_succ_self _)]

/-- C3 witness: the boundary cases at concrete numbers (age 60 and 61
against `maxFileAge = 60`; size 1000 and 1001 against
`maxFileSize = 1000`). -/
theorem c3_thresholds_strict_at_instance :
    (checkAndRotate cfgW 61000 sys0.st (Except.ok 5)).2.rotations = []
  ∧ (checkAndRotate cfgW 62000 sys0.st (Except.ok 5)).2.rotations =
      [Reason.str "Max file age reached"]
  ∧ (checkAndRotate cfgW 2000 sys0.st (Except.ok 1000)).2.rotations = []
  ∧ (checkAndRotate cfgW 2000 sys0.st (Except.ok 1001)).2.rotations =
      [Reason.str "Max file size reached"] := by
  have h := c3_thresholds_strict cfgW sys0.st 61000 62000 2000
  exact ⟨h.1 (by decide) 5 (by decide), h.2.1 (by decide) 5,
    (h.2.2 (by decide)).1, (h.2.2 (by decide)).2⟩

/-! ### C4 -/

/-- C4: on every tick whose size query succeeds the rotation decision is
evaluated in fixed order with first match winning: age over `maxFileAge`
rotates once with the max-age reason; otherwise size over `maxFileSize`
rotates once with the max-size reason; otherwise no rotation happens (the
state only refreshes the empty flag).  When both thresholds are exceeded
only the age rotation occurs. -/
theorem c4_decision_order (cfg : Config) (now : Nat) (s : StreamState)
    (size : Nat) :
    (cfg.maxFileAge < (now - s.created) / 1000 →
       (checkAndRotate cfg now s (Except.ok size)).2.rotations =
         [Reason.str "Max file age reached"])
  ∧ (¬ cfg.maxFileAge < (now - s.created) / 1000 → cfg.maxFileSize < size →
       (checkAndRotate cfg now s (Except.ok size)).2.rotations =
         [Reason.str "Max file size reached"])
  ∧ (¬ cfg.maxFileAge < (now - s.created) / 1000 → ¬ cfg.maxFileSize < size →
       (checkAndRotate cfg now s (Except.ok size)).2.rotations = []
     ∧ (checkAndRotate cfg now s (Except.ok size)).1 =
         { s with empty := some (size == 0) })
  ∧ (cfg.maxFileAge < (now - s.created) / 1000 ∧ cfg.maxFileSize < size →
       (checkAndRotate cfg now s (Except.ok size)).2.rotations =
         [Reason.str "Max file age reached"]) := by
  refine ⟨fun h1 => ?_, fun h1 h2 => ?_, fun h1 h2 => ⟨?_, ?_⟩, fun h12 => ?_⟩
  · rw [checkAndRotate_ok_rotations, if_pos h1]
  · rw [checkAndRotate_ok_rotations, if_neg h1, if_pos h2]
  · rw [checkAndRotate_ok_rotations, if_neg h1, if_neg h2]
  · simp [checkAndRotate, h1, h2]
  · rw [checkAndRotate_ok_rotations, if_pos h12.1]

/-- C4 witness: the decision order at concrete ticks, in particular a
tick where both thresholds are exceeded (age 61 over 60 and size 1500
over 1000) rotates only for age. -/
theorem c4_decision_order_at_instance :
    (checkAndRotate cfgW 62000 sys0.st (Except.ok 1500)).2.rotations =
      [Reason.str "Max file age reached"]
  ∧ (checkAndRotate cfgW 2000 sys0.st (Except.ok 1500)).2.rotations =
      [Reason.str "Max file size reached"]
  ∧ (checkAndRotate cfgW 2000 sys0.st (Except.ok 5)).2.rotations = []
  ∧ (checkAndRotate cfgW 2000 sys0.st (Except.ok 5)).1 =
      { sys0.st with empty := some false } := by
  have hBoth := c4_decision_order cfgW 62000 sys0.st 1500
  have hSize := c4_decision_order cfgW 2000 sys0.st 1500
  have hNone := c4_decision_order cfgW 2000 sys0.st 5
  exact ⟨hBoth.2.2.2 ⟨by decide, by decide⟩,
    hSize.2.1 (by decide) (by decide),
    (hNone.2.2.1 (by decide) (by decide)).1,
    (hNone.2.2.1 (by decide) (by decide)).2⟩

/-! ### C5 -/

/-- C5 counterexample: the claim requires the constructor to fail when
`localPrefix` is not a non-empty string, but options whose `localPrefix`
is the empty string pass validation and the constructor proceeds to its
side effects. -/
theorem c5_empty_local_prefix_accepted :
    opts0.localPrefix = JSVal.str ""
  ∧ constructorModel opts0 =
      (none, [CtorEffect.mkdirLocal, CtorEffect.openInitial,
              CtorEffect.scheduleTicks]) := by
  decide

/-- C5 (amended): the constructor fails synchronously, before any
filesystem or scheduler side effect, exactly when a config field is
invalid per the checks the code performs: `localPrefix` not a string
(the empty string is accepted), `maxFileSize` or `maxFileAge` not a
positive number, `s3Prefix` not a string containing `s3://`, or
`createFileName` present but not a function; otherwise it does not throw
on validation. -/
theorem c5_validation_characterized (o : Opts) :
    ((constructorModel o).1.isSome = invalidOptsSpec o)
  ∧ (∀ e, validateOpts o = some e → constructorModel o = (some e, [])) := by
  constructor
  · cases h1 : o.localPrefix.isString <;>
      cases h2 : o.maxFileSize.isPosNum <;>
        cases h3 : o.maxFileAge.isPosNum <;>
          cases h4 : o.s3Prefix.isS3Ref <;>
            cases h5 : o.createFileName.isOptionalFn <;>
              simp [constructorModel, validateOpts, invalidOptsSpec,
                h1, h2, h3, h4, h5]
  · intro e he
    simp [constructorModel, he]

/-- C5 witness: a numeric `localPrefix` makes the constructor throw with
the first validation message and perform no side effect. -/
theorem c5_validation_characterized_at_instance :
    (constructorModel optsBad).1.isSome = true
  ∧ constructorModel optsBad = (some "localPrefix must be a string", []) := by
  have h := c5_validation_characterized optsBad
  exact ⟨h.1.trans (by decide),
    h.2 "localPrefix must be a string" (by decide)⟩

/-! ### C6 -/

/-- C6: for every dispatched upload finishing with a nonzero status code,
exactly one error event is emitted carrying the status code, the source
path and the destination path, and the local file is not deleted (the
close handler can dispatch no further transfer, so there is no retry);
on status code 0 one info event is emitted and the local file is
deleted. -/
theorem c6_upload_close_outcome (code : Int) (source destination : String) :
    (code ≠ 0 →
        (onUploadClose code source destination).1.length = 1
      ∧ (∀ ev ∈ (onUploadClose code source destination).1,
            ev.level = "error" ∧ ev.code = some code
          ∧ ev.source = some source ∧ ev.destination = some destination)
      ∧ (onUploadClose code source destination).2 = [])
  ∧ (code = 0 →
        (onUploadClose code source destination).1.length = 1
      ∧ (∀ ev ∈ (onUploadClose code source destination).1,
            ev.level = "info" ∧ ev.source = some source
          ∧ ev.destination = some destination)
      ∧ (onUploadClose code source destination).2 = [source]) := by
  constructor
  · intro h
    simp [onUploadClose, h]
  · intro h
    simp [onUploadClose, h]

/-- C6 witness: the close handler at status 255 (failure: one error
event, no deletion) and at status 0 (success: one info event, the file
deleted). -/
theorem c6_upload_close_outcome_at_instance :
    ((onUploadClose 255 "logs/1" "s3://bucket/logs/1").1.length = 1
   ∧ (∀ ev ∈ (onUploadClose 255 "logs/1" "s3://bucket/logs/1").1,
         ev.level = "error" ∧ ev.code = some 255
       ∧ ev.source = some "logs/1" ∧ ev.destination = some "s3://bucket/logs/1")
   ∧ (onUploadClose 255 "logs/1" "s3://bucket/logs/1").2 = [])
  ∧ ((onUploadClose 0 "logs/1" "s3://bucket/logs/1").1.length = 1
   ∧ (∀ ev ∈ (onUploadClose 0 "logs/1" "s3://bucket/logs/1").1,
         ev.level = "info" ∧ ev.source = some "logs/1"
       ∧ ev.destination = some "s3://bucket/logs/1")
   ∧ (onUploadClose 0 "logs/1" "s3://bucket/logs/1").2 = ["logs/1"]) :=
  ⟨(c6_upload_close_outcome 255 "logs/1" "s3://bucket/logs/1").1 (by decide),
   (c6_upload_close_outcome 0 "logs/1" "s3://bucket/logs/1").2 rfl⟩

/-! ### C7 -/

/-- C7: for every invocation of `checkAndRotate` whose size query fails,
exactly one error event is emitted, identifying the failure and the
current source path; no rotation, upload or deletion occurs; the engine
state is unchanged, so the very same check is retried on the next
tick. -/
theorem c7_stat_failure_is_harmless (cfg : Config) (now : Nat)
    (s : StreamState) (e : String) :
    (checkAndRotate cfg now s (Except.error e)).1 = s
  ∧ (checkAndRotate cfg now s (Except.error e)).2.rotations = []
  ∧ (checkAndRotate cfg now s (Except.error e)).2.uploads = []
  ∧ (checkAndRotate cfg now s (Except.error e)).2.deletions = []
  ∧ (checkAndRotate cfg now s (Except.error e)).2.events =
      [{ level := "error", message := "fs.stat failed",
         source := some s.source, errMsg := some e }]
  ∧ (∀ now2 stat2,
      checkAndRotate cfg now2 (checkAndRotate cfg now s (Except.error e)).1
          stat2 =
        checkAndRotate cfg now2 s stat2) :=
  ⟨rfl, rfl, rfl, rfl, rfl, fun _ _ => rfl⟩

/-- C7 witness: a failing stat on the freshly constructed engine at a
concrete tick. -/
theorem c7_stat_failure_is_harmless_at_instance :
    (checkAndRotate cfgW 61000 sys0.st (Except.error "ENOENT")).1 = sys0.st
  ∧ (checkAndRotate cfgW 61000 sys0.st (Except.error "ENOENT")).2.rotations = []
  ∧ (checkAndRotate cfgW 61000 sys0.st (Except.error "ENOENT")).2.uploads = []
  ∧ (checkAndRotate cfgW 61000 sys0.st (Except.error "ENOENT")).2.deletions = []
  ∧ (checkAndRotate cfgW 61000 sys0.st (Except.error "ENOENT")).2.events =
      [{ level := "error", message := "fs.stat failed",
         source := some sys0.st.source, errMsg := some "ENOENT" }]
  ∧ (∀ now2 stat2,
      checkAndRotate cfgW now2
          (checkAndRotate cfgW 61000 sys0.st (Except.error "ENOENT")).1 stat2 =
        checkAndRotate cfgW now2 sys0.st stat2) :=
  c7_stat_failure_is_harmless cfgW 61000 sys0.st "ENOENT"

/-! ### C8 -/

/-- C8 counterexample: under the default name generator
(`moment().format()`, one-second resolution) a rotation in the same
second as the creation of the superseded file produces the SAME local
path, not a distinct one: the file created at t = 1000 ms and the
rotation at t = 1500 ms both name the file after second 1. -/
theorem c8_same_second_path_collision :
    (rotate cfgW 1500 sys0.st (Reason.str "Max file age reached")).state.source
        = sys0.st.source
  ∧ sys0.st.source = "logs/1" := by
  decide

/-- C8 (amended): a rotation results in a new ActiveFile whose local path
is distinct from the previous one whenever the name generator returns a
name different from the superseded file name; under the default
generator this holds exactly for rotations in a different second from
the superseded file creation. -/
theorem c8_rotation_path_distinct (cfg : Config) (now : Nat)
    (s : StreamState) (r : Reason) (n : String)
    (hs : s.source = cfg.localPrefix ++ "/" ++ n)
    (hn : cfg.createFileName now ≠ n) :
    (rotate cfg now s r).state.source ≠ s.source := by
  intro heq
  rw [rotate_state_source, hs] at heq
  exact hn (string_append_cancel_left _ _ _ heq)

/-- C8 witness: a rotation at t = 2500 ms (second 2) of the file created
at t = 1000 ms (second 1) gets a fresh path. -/
theorem c8_rotation_path_distinct_at_instance :
    (rotate cfgW 2500 sys0.st (Reason.str "Max file age reached")).state.source
      ≠ sys0.st.source :=
  c8_rotation_path_distinct cfgW 2500 sys0.st
    (Reason.str "Max file age reached") "1" (by decide) (by decide)

/-! ### C9 -/

/-- C9 counterexample: two flushes in immediate succession (t = 1100 ms
and t = 1200 ms, the same second as the construction at t = 1000 ms)
under the default name generator give the two rotations the SAME
`(source, destination)` pair, not distinct ones. -/
theorem c9_immediate_flushes_share_pair :
    r1W.old = r2W.old
  ∧ r1W.old = ("logs/1", "s3://bucket/logs/1") := by
  decide

/-- C9 (amended): calling `flush()` twice in succession produces two
rotations regardless of thresholds, and the second rotation supersedes
exactly the ActiveFile the first rotation created; the two rotations
have distinct `(source, destination)` pairs whenever the name generated
for the first flush differs from the superseded file name (under the
default generator: whenever the first flush falls in a different second
from the file creation). -/
theorem c9_flush_twice (cfg : Config) (t1 t2 : Nat) (s0 : StreamState)
    (n : String) (hs : s0.source = cfg.localPrefix ++ "/" ++ n)
    (hn : cfg.createFileName t1 ≠ n) :
    (flushStream cfg t2 (flushStream cfg t1 s0).state).old =
      ((flushStream cfg t1 s0).state.source,
       (flushStream cfg t1 s0).state.destination)
  ∧ (flushStream cfg t1 s0).out.rotations =
      [Reason.obj "External flush request"]
  ∧ (flushStream cfg t2 (flushStream cfg t1 s0).state).out.rotations =
      [Reason.obj "External flush request"]
  ∧ (flushStream cfg t1 s0).old ≠
      (flushStream cfg t2 (flushStream cfg t1 s0).state).old := by
  refine ⟨rotate_old _ _ _ _, rotate_rotations _ _ _ _,
    rotate_rotations _ _ _ _, ?_⟩
  simp only [flushStream]
  rw [rotate_old, rotate_old]
  intro heq
  have h1 : s0.source =
      (rotate cfg t1 s0 (Reason.obj "External flush request")).state.source :=
    congrArg Prod.fst heq
  rw [rotate_state_source cfg t1 s0, hs] at h1
  exact hn (string_append_cancel_left _ _ _ h1.symm)

/-- C9 witness: two flushes at t = 2500 ms and t = 3500 ms on the stream
constructed at t = 1000 ms. -/
theorem c9_flush_twice_at_instance :
    (flushStream cfgW 3500 (flushStream cfgW 2500 sys0.st).state).old =
      ((flushStream cfgW 2500 sys0.st).state.source,
       (flushStream cfgW 2500 sys0.st).state.destination)
  ∧ (flushStream cfgW 2500 sys0.st).out.rotations =
      [Reason.obj "External flush request"]
  ∧ (flushStream cfgW 3500 (flushStream cfgW 2500 sys0.st).state).out.rotations
      = [Reason.obj "External flush request"]
  ∧ (flushStream cfgW 2500 sys0.st).old ≠
      (flushStream cfgW 3500 (flushStream cfgW 2500 sys0.st).state).old :=
  c9_flush_twice cfgW 2500 3500 sys0.st "1" (by decide) (by decide)

/-! ### C10 -/

/-- C10: the emptiness flag consulted by rotate is exactly the value
recorded at the most recent successful size check (`this.empty`), not
the superseded file size at rotation time; in particular a `flush()`
performed before any size check has run (flag still unset) always
dispatches an upload, even though the file constructed at `t0` still has
size 0. -/
theorem c10_upload_decided_by_recorded_flag (cfg : Config)
    (now t0 t1 : Nat) (s : StreamState) (r : Reason) :
    ((rotate cfg now s r).out.uploads =
        if truthy s.empty then [] else [(s.source, s.destination)])
  ∧ (initSys cfg t0).curSize = 0
  ∧ (initSys cfg t0).st.empty = none
  ∧ (stepSys cfg (initSys cfg t0) (Op.flush t1)).2.uploads =
      [((initSys cfg t0).st.source, (initSys cfg t0).st.destination)] := by
  refine ⟨rotate_uploads _ _ _ _, rfl, rfl, ?_⟩
  simp [stepSys, flushStream, rotate_uploads, initSys, createStream, truthy]

/-- C10 witness: the flag dependence at the concrete fixture, and the
flush before the first check on `sys0`. -/
theorem c10_upload_decided_by_recorded_flag_at_instance :
    ((rotate cfgW 2000 stEmptyTrue
        (Reason.str "Max file age reached")).out.uploads =
      if truthy stEmptyTrue.empty then []
      else [(stEmptyTrue.source, stEmptyTrue.destination)])
  ∧ (initSys cfgW 1000).curSize = 0
  ∧ (initSys cfgW 1000).st.empty = none
  ∧ (stepSys cfgW (initSys cfgW 1000) (Op.flush 1100)).2.uploads =
      [((initSys cfgW 1000).st.source, (initSys cfgW 1000).st.destination)] :=
  c10_upload_decided_by_recorded_flag cfgW 2000 1000 1100 stEmptyTrue
    (Reason.str "Max file age reached")

end RotatingS3Stream
